import Mathlib

/-!
Verification of `scripts/reporting/batch_resolve_locking_issues.py`.

The script's own logic (`run_batch`, the metadata assembly in `main`, and the
connect/export sequence in `main`) is embedded below as executable Lean
definitions.  The collaborators imported from `batch_script_utils` and
`commands` (the ticket scraper, `ScrapedIssue.update`, `ScrapedIssue.resolved`,
`ExecRedcapLockingData.test`, …) are not part of the sources; their observable
outcomes are supplied through an explicit environment `Env`, and the behaviour
the specification ascribes to them is modelled from the specification where a
claim depends on it (each such definition is marked `Modelled from the spec`).

External effects (prints, `test()` calls against the record store, ticket
updates) are recorded as an event trace so that ordering and occurrence
properties can be stated and proved.
-/

namespace BatchResolve

/-- A remediation command parsed from a ticket body: a `(study_id, form)`
pair naming the record to re-import (see `commands.py`, not in the sources;
the two fields are the ones `run_batch` reads: `command.study_id`,
`command.form`). -/
structure Command where
  study_id : String
  form : String
deriving Repr, DecidableEq

/-- A scraped ticket as consumed by `run_batch`: its tracker number and the
ordered list of commands `get_commands()` yields. -/
structure ScrapedIssue where
  number : Nat
  commands : List Command
deriving Repr, DecidableEq

/-- Outcome of one `test()` call: the `success` flag the caller reads and the
diagnostic text `stringify_result()` would render. -/
structure PhaseOutcome where
  success : Bool
  detail : String
deriving Repr, DecidableEq

/-- The construction `ExecRedcapLockingData(verbose, study_id, form, lock)`
from `commands.py` as `run_batch` performs it (lines 46–51 of the script):
a passive value describing one lock-management operation. -/
structure ExecRedcapLockingData where
  verbose : Bool
  study_id : String
  form : String
  lock : Bool
deriving Repr, DecidableEq

/-- Environment of external outcomes: everything the script observes from its
collaborators.  `lockTest sid form lock` is the outcome of
`ExecRedcapLockingData(_, sid, form, lock).test()`; `cmdTest c` the outcome of
`c.test()` for a scraped command; `updateOk n` whether the tracker write in
`scraped_issue.update()` for ticket `n` succeeds (per the spec a failure there
is logged, never thrown); `stringify i` the text `i.stringify()` returns;
`verify` the result of `utils.verify_scraped_issues`. -/
structure Env where
  lockTest : String → String → Bool → PhaseOutcome
  cmdTest : Command → PhaseOutcome
  updateOk : Nat → Bool
  stringify : ScrapedIssue → String
  verify : List ScrapedIssue → Bool

/-- Observable events emitted while `run_batch` runs. -/
inductive Event where
  | print (s : String)
  | lockTestEv (study_id form : String) (lock : Bool)
  | cmdTestEv (study_id form : String)
  | updateCall (number : Nat) (ok : Bool)
deriving Repr, DecidableEq

/-- `unlock_command = ExecRedcapLockingData(verbose, command.study_id,
command.form, lock=False)` — script lines 46–48. -/
def unlockCommandFor (verbose : Bool) (c : Command) : ExecRedcapLockingData :=
  { verbose := verbose, study_id := c.study_id, form := c.form, lock := false }

/-- `lock_command = ExecRedcapLockingData(verbose, command.study_id,
command.form, lock=True)` — script lines 49–51. -/
def lockCommandFor (verbose : Bool) (c : Command) : ExecRedcapLockingData :=
  { verbose := verbose, study_id := c.study_id, form := c.form, lock := true }

/-- The body of the inner `for command in scraped_issue.get_commands()` loop
(script lines 45–56): construct the unlock and relock operations, run
`unlock_command.test()`, `command.test()`, `lock_command.test()` in that
order, then print a relock-error report iff `lock_command.success` is false. -/
def runCommand (env : Env) (verbose : Bool) (c : Command) : List Event :=
  let unlock_command := unlockCommandFor verbose c
  let lock_command := lockCommandFor verbose c
  let lockOutcome := env.lockTest lock_command.study_id lock_command.form lock_command.lock
  [Event.lockTestEv unlock_command.study_id unlock_command.form unlock_command.lock,
   Event.cmdTestEv c.study_id c.form,
   Event.lockTestEv lock_command.study_id lock_command.form lock_command.lock] ++
  (if lockOutcome.success = false then
    [Event.print ("Errors relocking:\n" ++ lockOutcome.detail)]
   else [])

/-- Modelled from the spec: a Command "produced three successful
ExecutionResults (unlock, command, relock all succeeded)".  The three phase
outcomes are the ones `runCommand` observes for `c`. -/
def commandFullySucceeded (env : Env) (c : Command) : Bool :=
  (env.lockTest c.study_id c.form false).success &&
  (env.cmdTest c).success &&
  (env.lockTest c.study_id c.form true).success

/-- Modelled from the spec: `ScrapedIssue.resolved` (set by code in
`batch_script_utils.py`, not in the sources).  "A ScrapedIssue is marked
`resolved = true` iff every Command it held produced three successful
ExecutionResults" together with "A ticket with zero Commands (nothing
parseable) is always unresolved". -/
def issueResolved (env : Env) (issue : ScrapedIssue) : Bool :=
  !issue.commands.isEmpty && issue.commands.all (commandFullySucceeded env)

/-- The string `"\n" * 20` printed before each verbose ticket dump. -/
def newlines20 : String := String.mk (List.replicate 20 '\n')

/-- Modelled from the spec: the tracker write performed by
`scraped_issue.update()` (code in `batch_script_utils.py`, not in the
sources).  The update is attempted exactly where the script calls it; a
failure of the tracker write is captured and logged inside `update`, never
thrown ("TicketUpdateFailure — posting a comment or closing a ticket failed;
logged, does not abort the remaining batch"), so it is recorded as the `ok`
flag of the event and has no effect on control flow. -/
def updateEvents (env : Env) (issue : ScrapedIssue) : List Event :=
  [Event.updateCall issue.number (env.updateOk issue.number)]

/-- One iteration of the outer `for scraped_issue in scraped_issues` loop
(script lines 40–57, stopping before the bookkeeping on lines 58–62):
verbose dump of the ticket, then all its commands, then the update. -/
def runIssue (env : Env) (verbose : Bool) (issue : ScrapedIssue) : List Event :=
  (if verbose then
    [Event.print newlines20, Event.print (env.stringify issue)]
   else []) ++
  (issue.commands.map (runCommand env verbose)).flatten ++
  updateEvents env issue

/-- The events of the whole ticket loop, in iteration order. -/
def batchTrace (env : Env) (verbose : Bool) (issues : List ScrapedIssue) : List Event :=
  (issues.map (runIssue env verbose)).flatten

/-- The `closed_issues` list as built by the loop (script lines 59–60): the
string `f"#{scraped_issue.number}"` is appended, in iteration order, for
exactly the tickets whose `resolved` flag is true. -/
def closedOf (env : Env) (issues : List ScrapedIssue) : List String :=
  (issues.filter (fun i => issueResolved env i)).map (fun i => "#" ++ toString i.number)

/-- The `commented_issues` list as built by the loop (script lines 61–62). -/
def commentedOf (env : Env) (issues : List ScrapedIssue) : List String :=
  (issues.filter (fun i => !issueResolved env i)).map (fun i => "#" ++ toString i.number)

/-- Result of one `run_batch` call: the event trace plus the two bookkeeping
lists the function accumulates. -/
structure BatchResult where
  trace : List Event
  closed_issues : List String
  commented_issues : List String
deriving Repr, DecidableEq

/-- `run_batch(label, issue_numbers, metadata, verbose)`, script lines 26–66.
The scraping call (`utils.scrape_matching_issues`) is external; `issues` is
its result, and `env.verify` stands for `utils.verify_scraped_issues`.  If
verification fails the function prints `"Aborting..."` and returns at once;
otherwise it processes every ticket and, only when `verbose` is set, prints
the final closed/commented summary (lines 64–66). -/
def run_batch (env : Env) (issues : List ScrapedIssue) (verbose : Bool) : BatchResult :=
  if env.verify issues = false then
    { trace := [Event.print "Aborting..."], closed_issues := [], commented_issues := [] }
  else
    { trace := batchTrace env verbose issues ++
        (if verbose then
          [Event.print ("\n\nClosed:\n" ++ String.intercalate ", " (closedOf env issues)),
           Event.print ("Commented:\n" ++ String.intercalate ", " (commentedOf env issues))]
         else []),
      closed_issues := closedOf env issues,
      commented_issues := commentedOf env issues }

/-- Classifier: events that are `test()` calls against the record store
(either a lock-management operation or the remediation command itself). -/
def isPhaseEvent : Event → Bool
  | Event.lockTestEv _ _ _ => true
  | Event.cmdTestEv _ _ => true
  | _ => false

/-- Classifier: events that are ticket updates (`scraped_issue.update()`). -/
def isUpdateEvent : Event → Bool
  | Event.updateCall _ _ => true
  | _ => false

/-- Classifier: events that are console prints. -/
def isPrintEvent : Event → Bool
  | Event.print _ => true
  | _ => false

/-- Classifier: the update call of ticket `n`. -/
def isUpdateFor (n : Nat) : Event → Bool
  | Event.updateCall m _ => m == n
  | _ => false

/-- The three `test()` events one command produces, in source order:
unlock, command, relock. -/
def commandPhases (c : Command) : List Event :=
  [Event.lockTestEv c.study_id c.form false,
   Event.cmdTestEv c.study_id c.form,
   Event.lockTestEv c.study_id c.form true]

/-- The relock-error report one command produces: a single dedicated print
carrying the relock outcome detail when the relock failed, nothing
otherwise (script lines 55–56). -/
def relockErrorPrint (env : Env) (c : Command) : List Event :=
  if (env.lockTest c.study_id c.form true).success = false then
    [Event.print ("Errors relocking:\n" ++ (env.lockTest c.study_id c.form true).detail)]
  else []

/-- The two verbose per-ticket diagnostic prints (script lines 41–43). -/
def issueDiagPrints (env : Env) (issue : ScrapedIssue) : List Event :=
  [Event.print newlines20, Event.print (env.stringify issue)]

/-- The two final summary prints (script lines 64–66). -/
def summaryPrints (env : Env) (issues : List ScrapedIssue) : List Event :=
  [Event.print ("\n\nClosed:\n" ++ String.intercalate ", " (closedOf env issues)),
   Event.print ("Commented:\n" ++ String.intercalate ", " (commentedOf env issues))]

/-- The string `f"#{n}"` recorded for ticket `n` in the outcome lists. -/
def issueTag (i : ScrapedIssue) : String := "#" ++ toString i.number

/-- An environment in which every external operation succeeds. -/
def envAllOk : Env where
  lockTest := fun _ _ _ => { success := true, detail := "locked" }
  cmdTest := fun _ => { success := true, detail := "ok" }
  updateOk := fun _ => true
  stringify := fun i => "issue " ++ toString i.number
  verify := fun _ => true

/-- An environment in which every phase and every tracker update fails while
verification still passes. -/
def envAllFail : Env where
  lockTest := fun _ _ _ => { success := false, detail := "lock error" }
  cmdTest := fun _ => { success := false, detail := "command error" }
  updateOk := fun _ => false
  stringify := fun i => "issue " ++ toString i.number
  verify := fun _ => true

/-- An environment in which only the relock phase fails. -/
def envRelockFails : Env where
  lockTest := fun _ _ lock =>
    if lock then { success := false, detail := "relock failed" }
    else { success := true, detail := "unlocked" }
  cmdTest := fun _ => { success := true, detail := "ok" }
  updateOk := fun _ => true
  stringify := fun i => "issue " ++ toString i.number
  verify := fun _ => true

/-- An environment whose batch verification always fails. -/
def envNoVerify : Env where
  lockTest := fun _ _ _ => { success := true, detail := "locked" }
  cmdTest := fun _ => { success := true, detail := "ok" }
  updateOk := fun _ => true
  stringify := fun i => "issue " ++ toString i.number
  verify := fun _ => false

/-- A one-command ticket (the spec Scenario A shape). -/
def issue100 : ScrapedIssue :=
  { number := 100, commands := [{ study_id := "S001", form := "demographics" }] }

/-- A two-command ticket (the spec Scenario B shape). -/
def issue101 : ScrapedIssue :=
  { number := 101,
    commands := [{ study_id := "S002", form := "clinical" },
                 { study_id := "S002", form := "demographics" }] }

/-- A ticket with no parseable commands (the spec Scenario C shape). -/
def issue102 : ScrapedIssue := { number := 102, commands := [] }

section Helpers

variable {α β : Type}

theorem filter_flatten_map (p : β → Bool) (f g : α → List β)
    (h : ∀ a, (f a).filter p = g a) (l : List α) :
    ((l.map f).flatten).filter p = (l.map g).flatten := by
  induction l with
  | nil => rfl
  | cons x xs ih =>
      simp only [List.map_cons, List.flatten_cons, List.filter_append, ih, h]

theorem flatten_map_singleton (f : α → β) (l : List α) :
    (l.map (fun a => [f a])).flatten = l.map f := by
  induction l with
  | nil => rfl
  | cons x xs ih => simp [ih]

theorem filter_of_implied (p q : α → Bool) (hpq : ∀ a, p a = true → q a = true)
    (l : List α) : (l.filter q).filter p = l.filter p := by
  rw [List.filter_filter]
  apply List.filter_congr
  intro a _
  cases hp : p a with
  | false => simp
  | true => simp [hpq a hp]

theorem filter_runCommand_phase (env : Env) (vb : Bool) (c : Command) :
    (runCommand env vb c).filter isPhaseEvent = commandPhases c := by
  unfold runCommand
  dsimp only
  split <;> simp [commandPhases, isPhaseEvent, unlockCommandFor, lockCommandFor, List.filter]

theorem filter_runCommand_update (env : Env) (vb : Bool) (c : Command) :
    (runCommand env vb c).filter isUpdateEvent = [] := by
  unfold runCommand
  dsimp only
  split <;> simp [isUpdateEvent, List.filter]

theorem filter_runCommand_print (env : Env) (vb : Bool) (c : Command) :
    (runCommand env vb c).filter isPrintEvent = relockErrorPrint env c := by
  unfold runCommand relockErrorPrint unlockCommandFor lockCommandFor
  dsimp only
  split <;> simp_all [isPrintEvent, List.filter]

theorem filter_runIssue_phase (env : Env) (vb : Bool) (issue : ScrapedIssue) :
    (runIssue env vb issue).filter isPhaseEvent =
      (issue.commands.map commandPhases).flatten := by
  unfold runIssue
  rw [List.filter_append, List.filter_append,
    filter_flatten_map isPhaseEvent _ commandPhases (filter_runCommand_phase env vb)]
  cases vb <;> simp [isPhaseEvent, updateEvents, List.filter]

theorem filter_runIssue_update (env : Env) (vb : Bool) (issue : ScrapedIssue) :
    (runIssue env vb issue).filter isUpdateEvent =
      [Event.updateCall issue.number (env.updateOk issue.number)] := by
  unfold runIssue
  rw [List.filter_append, List.filter_append,
    filter_flatten_map isUpdateEvent _ (fun _ => []) (filter_runCommand_update env vb)]
  cases vb <;> simp [isUpdateEvent, updateEvents, List.filter]

theorem filter_runIssue_print (env : Env) (vb : Bool) (issue : ScrapedIssue) :
    (runIssue env vb issue).filter isPrintEvent =
      (if vb then issueDiagPrints env issue else []) ++
        (issue.commands.map (relockErrorPrint env)).flatten := by
  unfold runIssue
  rw [List.filter_append, List.filter_append,
    filter_flatten_map isPrintEvent _ (relockErrorPrint env) (filter_runCommand_print env vb)]
  cases vb <;> simp [isPrintEvent, updateEvents, issueDiagPrints, List.filter]

theorem filter_batchTrace_phase (env : Env) (vb : Bool) (issues : List ScrapedIssue) :
    (batchTrace env vb issues).filter isPhaseEvent =
      (issues.map (fun i => (i.commands.map commandPhases).flatten)).flatten :=
  filter_flatten_map isPhaseEvent _ _ (filter_runIssue_phase env vb) issues

theorem filter_batchTrace_update (env : Env) (vb : Bool) (issues : List ScrapedIssue) :
    (batchTrace env vb issues).filter isUpdateEvent =
      issues.map (fun i => Event.updateCall i.number (env.updateOk i.number)) := by
  rw [batchTrace,
    filter_flatten_map isUpdateEvent _
      (fun i => [Event.updateCall i.number (env.updateOk i.number)])
      (filter_runIssue_update env vb) issues,
    flatten_map_singleton]

theorem filter_batchTrace_print (env : Env) (vb : Bool) (issues : List ScrapedIssue) :
    (batchTrace env vb issues).filter isPrintEvent =
      (issues.map (fun i =>
        (if vb then issueDiagPrints env i else []) ++
          (i.commands.map (relockErrorPrint env)).flatten)).flatten :=
  filter_flatten_map isPrintEvent _ _ (filter_runIssue_print env vb) issues

theorem run_batch_verified (env : Env) (issues : List ScrapedIssue) (vb : Bool)
    (hv : env.verify issues = true) :
    run_batch env issues vb =
      { trace := batchTrace env vb issues ++ (if vb then summaryPrints env issues else []),
        closed_issues := closedOf env issues,
        commented_issues := commentedOf env issues } := by
  rw [run_batch, hv]
  simp [summaryPrints]

theorem run_batch_update_filter (env : Env) (issues : List ScrapedIssue) (vb : Bool)
    (hv : env.verify issues = true) :
    (run_batch env issues vb).trace.filter isUpdateEvent =
      issues.map (fun i => Event.updateCall i.number (env.updateOk i.number)) := by
  rw [run_batch_verified env issues vb hv]
  dsimp only
  rw [List.filter_append, filter_batchTrace_update]
  cases vb <;> simp [summaryPrints, isUpdateEvent, List.filter]

end Helpers

/-- C2: for every Command executed by `run_batch`, the relock operation is
attempted exactly once, after the unlock and command phases, regardless of
any phase outcome, and the three phases of one Command complete before the
next Command's phases begin: the record-store calls in the trace are exactly
the concatenation, ticket by ticket and command by command in order, of the
fixed triple (unlock test, command test, relock test). -/
theorem relock_exactly_once_per_command (env : Env) (issues : List ScrapedIssue)
    (verbose : Bool) (hv : env.verify issues = true) :
    (run_batch env issues verbose).trace.filter isPhaseEvent =
      (issues.map (fun i => (i.commands.map commandPhases).flatten)).flatten := by
  rw [run_batch_verified env issues verbose hv]
  dsimp only
  rw [List.filter_append, filter_batchTrace_phase]
  cases verbose <;> simp [summaryPrints, isPhaseEvent, List.filter]

/-- Witness for C2 at a concrete two-command ticket in an environment where
the unlock and command phases fail: the relock test still appears exactly
once per command, third in each triple. -/
theorem relock_exactly_once_per_command_witness :
    (run_batch envAllFail [issue101] false).trace.filter isPhaseEvent =
      [Event.lockTestEv "S002" "clinical" false,
       Event.cmdTestEv "S002" "clinical",
       Event.lockTestEv "S002" "clinical" true,
       Event.lockTestEv "S002" "demographics" false,
       Event.cmdTestEv "S002" "demographics",
       Event.lockTestEv "S002" "demographics" true] := by
  rw [relock_exactly_once_per_command envAllFail [issue101] false rfl]
  rfl

/-- C3: if batch verification of the scraped tickets fails, `run_batch`
prints `"Aborting..."` and returns without any tracker mutation: the trace
holds no record-store call and no ticket update, and both outcome lists are
empty. -/
theorem verification_failure_is_noop (env : Env) (issues : List ScrapedIssue)
    (verbose : Bool) (hv : env.verify issues = false) :
    (run_batch env issues verbose).trace = [Event.print "Aborting..."] ∧
    (run_batch env issues verbose).trace.filter isPhaseEvent = [] ∧
    (run_batch env issues verbose).trace.filter isUpdateEvent = [] ∧
    (run_batch env issues verbose).closed_issues = [] ∧
    (run_batch env issues verbose).commented_issues = [] := by
  rw [run_batch, hv]
  simp [isPhaseEvent, isUpdateEvent, List.filter]

/-- Witness for C3: a failing verification over two scraped tickets leaves
only the abort message. -/
theorem verification_failure_is_noop_witness :
    (run_batch envNoVerify [issue100, issue101] true).trace =
        [Event.print "Aborting..."] ∧
    (run_batch envNoVerify [issue100, issue101] true).trace.filter isPhaseEvent = [] ∧
    (run_batch envNoVerify [issue100, issue101] true).trace.filter isUpdateEvent = [] ∧
    (run_batch envNoVerify [issue100, issue101] true).closed_issues = [] ∧
    (run_batch envNoVerify [issue100, issue101] true).commented_issues = [] :=
  verification_failure_is_noop envNoVerify [issue100, issue101] true rfl

/-- C4: per-ticket work is isolated — for any combination of phase outcomes
and per-ticket update outcomes (the environment is arbitrary, so any ticket's
phases and tracker update may fail), `run_batch` still performs the update of
every scraped ticket, in order: failures at one ticket never prevent the
remaining tickets from being processed. -/
theorem ticket_failures_do_not_stop_batch (env : Env) (issues : List ScrapedIssue)
    (verbose : Bool) (hv : env.verify issues = true) :
    (run_batch env issues verbose).trace.filter isUpdateEvent =
      issues.map (fun i => Event.updateCall i.number (env.updateOk i.number)) :=
  run_batch_update_filter env issues verbose hv

/-- Witness for C4: in an environment where every phase fails and every
tracker update fails, both tickets of the batch are still updated. -/
theorem ticket_failures_do_not_stop_batch_witness :
    (run_batch envAllFail [issue100, issue101] false).trace.filter isUpdateEvent =
      [Event.updateCall 100 false, Event.updateCall 101 false] := by
  rw [ticket_failures_do_not_stop_batch envAllFail [issue100, issue101] false rfl]
  rfl

/-- C1 counterexample: a ticket with zero commands refutes the claimed
equivalence as stated.  Every command of `issue102` (there are none) trivially
produced three successful phase results, yet the ticket stays unresolved and
is recorded as commented, not closed — the "iff" fails in the right-to-left
direction. -/
theorem resolved_iff_counterexample :
    issue102.commands.all (commandFullySucceeded envAllOk) = true ∧
    issueResolved envAllOk issue102 = false ∧
    (run_batch envAllOk [issue102] false).closed_issues = [] ∧
    (run_batch envAllOk [issue102] false).commented_issues = ["#102"] :=
  ⟨rfl, rfl, rfl, rfl⟩

/-- C1 amended: for every ticket processed by `run_batch`, the resolved flag
is true after processing iff the ticket held at least one Command and every
Command it held produced three successful phase results (unlock, command and
relock all succeeded); any phase failure for any Command, and likewise an
empty command list, leaves resolved false. -/
theorem resolved_iff_all_phases (env : Env) (issues : List ScrapedIssue)
    (verbose : Bool) (hv : env.verify issues = true)
    (issue : ScrapedIssue) (hmem : issue ∈ issues) :
    issueResolved env issue = true ↔
      issue.commands ≠ [] ∧
        ∀ c ∈ issue.commands, commandFullySucceeded env c = true := by
  simp [issueResolved, List.isEmpty_iff, List.all_eq_true]

/-- Witness for C1 amended: the equivalence applied to the one-command ticket
`issue100` of a verified batch, in the all-success environment. -/
theorem resolved_iff_all_phases_witness :
    issueResolved envAllOk issue100 = true ↔
      issue100.commands ≠ [] ∧
        ∀ c ∈ issue100.commands, commandFullySucceeded envAllOk c = true :=
  resolved_iff_all_phases envAllOk [issue100] false rfl issue100 (by simp)

/-- C5 counterexample: with `verbose = false` and a fully successful batch of
one ticket, `run_batch` closes the ticket yet prints nothing at all — in
particular it does not print the final summary of closed and commented
ticket identifiers that the claim says non-verbose mode emits. -/
theorem nonverbose_prints_counterexample :
    (run_batch envAllOk [issue100] false).closed_issues = ["#100"] ∧
    (run_batch envAllOk [issue100] false).trace.filter isPrintEvent = [] := by
  exact ⟨rfl, rfl⟩

/-- C5 amended: both the per-ticket diagnostic text and the final summary of
closed versus commented ticket identifiers are printed only when `verbose`
is true; with `verbose` false, `run_batch` prints nothing except the
dedicated relock-error reports.  (On verification failure it additionally
prints the abort message; that path is covered separately.) -/
theorem verbose_gates_all_prints (env : Env) (issues : List ScrapedIssue)
    (hv : env.verify issues = true) :
    (run_batch env issues false).trace.filter isPrintEvent =
      (issues.map (fun i => (i.commands.map (relockErrorPrint env)).flatten)).flatten ∧
    (run_batch env issues true).trace.filter isPrintEvent =
      (issues.map (fun i =>
        issueDiagPrints env i ++ (i.commands.map (relockErrorPrint env)).flatten)).flatten
        ++ summaryPrints env issues := by
  constructor
  · rw [run_batch_verified env issues false hv]
    dsimp only
    rw [List.filter_append, filter_batchTrace_print]
    simp
  · rw [run_batch_verified env issues true hv]
    dsimp only
    rw [List.filter_append, filter_batchTrace_print]
    simp [summaryPrints, isPrintEvent, List.filter]

/-- Witness for C5 amended at a concrete batch whose relock phases fail: not
verbose, the only prints are the two relock-error reports; verbose, the
diagnostics and the final summary appear as well. -/
theorem verbose_gates_all_prints_witness :
    (run_batch envRelockFails [issue101] false).trace.filter isPrintEvent =
      [Event.print ("Errors relocking:\n" ++ "relock failed"),
       Event.print ("Errors relocking:\n" ++ "relock failed")] ∧
    (run_batch envRelockFails [issue101] true).trace.filter isPrintEvent =
      [Event.print newlines20, Event.print ("issue " ++ toString 101),
       Event.print ("Errors relocking:\n" ++ "relock failed"),
       Event.print ("Errors relocking:\n" ++ "relock failed"),
       Event.print ("\n\nClosed:\n" ++ String.intercalate ", " []),
       Event.print ("Commented:\n" ++ String.intercalate ", " ["#101"])] := by
  have h := verbose_gates_all_prints envRelockFails [issue101] rfl
  exact ⟨by rw [h.1]; rfl, by rw [h.2]; rfl⟩

/-- C7: a failed relock is surfaced distinctly.  Within the execution of one
Command the dedicated relock-error print, carrying the relock outcome's
detail text, is emitted iff the relock operation reported failure; and
whenever the relock of a command of a processed ticket fails, that report
appears in the `run_batch` trace. -/
theorem relock_failure_reported (env : Env) (verbose : Bool)
    (issues : List ScrapedIssue) (issue : ScrapedIssue) (c : Command)
    (hv : env.verify issues = true) (hissue : issue ∈ issues)
    (hc : c ∈ issue.commands) :
    (Event.print ("Errors relocking:\n" ++ (env.lockTest c.study_id c.form true).detail)
        ∈ runCommand env verbose c ↔
      (env.lockTest c.study_id c.form true).success = false) ∧
    ((env.lockTest c.study_id c.form true).success = false →
      Event.print ("Errors relocking:\n" ++ (env.lockTest c.study_id c.form true).detail)
        ∈ (run_batch env issues verbose).trace) := by
  have hmemcmd : (env.lockTest c.study_id c.form true).success = false →
      Event.print ("Errors relocking:\n" ++ (env.lockTest c.study_id c.form true).detail)
        ∈ runCommand env verbose c := by
    intro hfail
    unfold runCommand
    dsimp only
    simp [unlockCommandFor, lockCommandFor, hfail]
  constructor
  · constructor
    · intro hmem
      by_contra hsucc
      rw [Bool.not_eq_false] at hsucc
      revert hmem
      unfold runCommand
      dsimp only
      simp [unlockCommandFor, lockCommandFor, hsucc]
    · exact hmemcmd
  · intro hfail
    rw [run_batch_verified env issues verbose hv]
    dsimp only
    apply List.mem_append_left
    rw [batchTrace]
    rw [List.mem_flatten]
    refine ⟨runIssue env verbose issue, List.mem_map_of_mem _ hissue, ?_⟩
    unfold runIssue
    apply List.mem_append_left
    apply List.mem_append_right
    rw [List.mem_flatten]
    exact ⟨runCommand env verbose c, List.mem_map_of_mem _ hc, hmemcmd hfail⟩

/-- Witness for C7 at the first command of `issue101` in the environment
whose relock phase fails. -/
theorem relock_failure_reported_witness :
    (Event.print ("Errors relocking:\n" ++
        (envRelockFails.lockTest "S002" "clinical" true).detail)
      ∈ runCommand envRelockFails false { study_id := "S002", form := "clinical" } ↔
      (envRelockFails.lockTest "S002" "clinical" true).success = false) ∧
    ((envRelockFails.lockTest "S002" "clinical" true).success = false →
      Event.print ("Errors relocking:\n" ++
          (envRelockFails.lockTest "S002" "clinical" true).detail)
        ∈ (run_batch envRelockFails [issue101] false).trace) :=
  relock_failure_reported envRelockFails false [issue101] issue101
    { study_id := "S002", form := "clinical" } rfl (by simp) (by simp [issue101])

/-- C6: every ticket processed past verification is updated exactly once
(the trace holds exactly one update call carrying its number), and — under
the side condition that the recorded ticket identifier strings are distinct —
the ticket is recorded in `closed_issues` iff its resolved flag is true and
in `commented_issues` iff it is false, hence in exactly one of the two
outcome lists. -/
theorem each_ticket_updated_once_and_recorded (env : Env)
    (issues : List ScrapedIssue) (verbose : Bool)
    (hv : env.verify issues = true) (hnodup : (issues.map issueTag).Nodup)
    (issue : ScrapedIssue) (hmem : issue ∈ issues) :
    ((run_batch env issues verbose).trace.filter (isUpdateFor issue.number)).length = 1 ∧
    (issueTag issue ∈ (run_batch env issues verbose).closed_issues ↔
      issueResolved env issue = true) ∧
    (issueTag issue ∈ (run_batch env issues verbose).commented_issues ↔
      issueResolved env issue = false) := by
  have hNumNodup : (issues.map ScrapedIssue.number).Nodup := by
    apply List.Nodup.of_map (fun n : Nat => "#" ++ toString n)
    rw [List.map_map]
    exact hnodup
  have hmemnum : issue.number ∈ issues.map ScrapedIssue.number :=
    List.mem_map_of_mem _ hmem
  refine ⟨?_, ?_, ?_⟩
  · have himp : ∀ e, isUpdateFor issue.number e = true → isUpdateEvent e = true := by
      intro e he
      cases e <;> simp_all [isUpdateFor, isUpdateEvent]
    rw [← filter_of_implied (isUpdateFor issue.number) isUpdateEvent himp,
      run_batch_update_filter env issues verbose hv,
      List.filter_map, List.length_map, ← List.countP_eq_length_filter]
    have hcount : (issues.map ScrapedIssue.number).count issue.number = 1 :=
      List.count_eq_one_of_mem hNumNodup hmemnum
    rw [List.count_eq_countP, List.countP_map] at hcount
    exact hcount
  · rw [run_batch_verified env issues verbose hv]
    dsimp only [closedOf]
    constructor
    · intro h
      obtain ⟨i', hi', htag⟩ := List.mem_map.mp h
      obtain ⟨hi'mem, hres'⟩ := List.mem_filter.mp hi'
      have hsame : i' = issue := List.inj_on_of_nodup_map hnodup hi'mem hmem htag
      subst hsame
      simpa using hres'
    · intro hres
      exact List.mem_map_of_mem _ (List.mem_filter.mpr ⟨hmem, by simpa using hres⟩)
  · rw [run_batch_verified env issues verbose hv]
    dsimp only [commentedOf]
    constructor
    · intro h
      obtain ⟨i', hi', htag⟩ := List.mem_map.mp h
      obtain ⟨hi'mem, hres'⟩ := List.mem_filter.mp hi'
      have hsame : i' = issue := List.inj_on_of_nodup_map hnodup hi'mem hmem htag
      subst hsame
      simpa using hres'
    · intro hres
      exact List.mem_map_of_mem _ (List.mem_filter.mpr ⟨hmem, by simpa using hres⟩)

/-- Witness for C6: a verified two-ticket batch (one resolved, one with no
commands) in the all-success environment, observed at the resolved ticket. -/
theorem each_ticket_updated_once_and_recorded_witness :
    ((run_batch envAllOk [issue100, issue102] false).trace.filter
        (isUpdateFor issue100.number)).length = 1 ∧
    (issueTag issue100 ∈ (run_batch envAllOk [issue100, issue102] false).closed_issues ↔
      issueResolved envAllOk issue100 = true) ∧
    (issueTag issue100 ∈ (run_batch envAllOk [issue100, issue102] false).commented_issues ↔
      issueResolved envAllOk issue100 = false) :=
  each_ticket_updated_once_and_recorded envAllOk [issue100, issue102] false rfl
    (by decide) issue100 (by simp)

/-- `pandas.Series.unique` as used on `metadata["form_name"]` in `main`
(line 92): the distinct values of the list in first-occurrence order.
`seen` accumulates the values already emitted. -/
def uniqueVals (seen : List String) : List String → List String
  | [] => []
  | x :: xs => if x ∈ seen then uniqueVals seen xs else x :: uniqueVals (x :: seen) xs

/-- `main` lines 86–99: the metadata table as a list of
`(form_name, field_name)` rows.  `export_metadata` yields the original rows;
`main` then takes the unique form names and appends, for each, one row
pairing the form with the field `f"{form}_complete"`. -/
def buildMetadata (metadata : List (String × String)) : List (String × String) :=
  metadata ++
    (uniqueVals [] (metadata.map Prod.fst)).map (fun form => (form, form ++ "_complete"))

theorem count_pair_eq_countP (L : List (String × String)) (a : String × String) :
    L.count a = L.countP (fun x => decide (x = a)) := by
  rw [List.count_eq_countP]
  apply List.countP_congr
  intro x _
  simp

theorem countP_eq_one_of_nodup_mem {α : Type} [DecidableEq α] {l : List α} {a : α}
    (hn : l.Nodup) (hm : a ∈ l) : l.countP (fun x => decide (x = a)) = 1 := by
  induction l with
  | nil => cases hm
  | cons x xs ih =>
    rw [List.nodup_cons] at hn
    rw [List.countP_cons]
    rcases List.mem_cons.mp hm with rfl | hmem
    · have hz : xs.countP (fun y => decide (y = a)) = 0 := by
        apply List.countP_eq_zero.mpr
        intro y hy
        simp only [decide_eq_true_eq]
        rintro rfl
        exact hn.1 hy
      simp [hz]
    · have hax : ¬x = a := fun h => hn.1 (h ▸ hmem)
      simp [ih hn.2 hmem, hax]

theorem mem_uniqueVals (x : String) (l : List String) : ∀ seen : List String,
    x ∈ uniqueVals seen l ↔ x ∈ l ∧ x ∉ seen := by
  induction l with
  | nil => intro seen; simp [uniqueVals]
  | cons y ys ih =>
    intro seen
    by_cases h : y ∈ seen
    · rw [uniqueVals, if_pos h, ih seen, List.mem_cons]
      constructor
      · rintro ⟨hx, hs⟩
        exact ⟨Or.inr hx, hs⟩
      · rintro ⟨hxy | hx, hs⟩
        · exact absurd (hxy ▸ h) hs
        · exact ⟨hx, hs⟩
    · rw [uniqueVals, if_neg h, List.mem_cons, List.mem_cons, ih (y :: seen),
        List.mem_cons]
      by_cases hxy : x = y
      · subst hxy
        simp [h]
      · simp only [hxy, false_or]

theorem nodup_uniqueVals (l : List String) : ∀ seen : List String,
    (uniqueVals seen l).Nodup := by
  induction l with
  | nil => intro seen; simp [uniqueVals]
  | cons y ys ih =>
    intro seen
    by_cases h : y ∈ seen
    · rw [uniqueVals, if_pos h]
      exact ih seen
    · rw [uniqueVals, if_neg h]
      refine List.nodup_cons.mpr ⟨?_, ih (y :: seen)⟩
      intro hy
      exact ((mem_uniqueVals y ys (y :: seen)).mp hy).2 (List.mem_cons_self y seen)

/-- C8: the metadata table that `main` builds contains every original
`(form_name, field_name)` row, and for every distinct form name of the
exported table exactly one synthesized row pairing that form with the field
`f"{form}_complete"` among the appended rows. -/
theorem metadata_gains_complete_fields (metadata : List (String × String)) :
    (∀ row ∈ metadata, row ∈ buildMetadata metadata) ∧
    (∀ f ∈ metadata.map Prod.fst,
      (f, f ++ "_complete") ∈ buildMetadata metadata ∧
      ((uniqueVals [] (metadata.map Prod.fst)).map
          (fun form => (form, form ++ "_complete"))).count (f, f ++ "_complete") = 1) := by
  have hinj : Function.Injective (fun form : String => (form, form ++ "_complete")) := by
    intro a b hab
    exact congrArg Prod.fst hab
  constructor
  · intro row hrow
    exact List.mem_append_left _ hrow
  · intro f hf
    have hfmem : f ∈ uniqueVals [] (metadata.map Prod.fst) :=
      (mem_uniqueVals f (metadata.map Prod.fst) []).mpr ⟨hf, by simp⟩
    constructor
    · exact List.mem_append_right _ (List.mem_map_of_mem _ hfmem)
    · rw [count_pair_eq_countP, List.countP_map]
      have h1 : (uniqueVals [] (metadata.map Prod.fst)).countP
            ((fun x => decide (x = (f, f ++ "_complete"))) ∘
              fun form => (form, form ++ "_complete")) =
          (uniqueVals [] (metadata.map Prod.fst)).countP (fun form => decide (form = f)) := by
        apply List.countP_congr
        intro form _
        simp only [Function.comp, decide_eq_true_eq, Prod.mk.injEq]
        constructor
        · rintro ⟨h, _⟩
          exact h
        · rintro rfl
          exact ⟨rfl, rfl⟩
      rw [h1]
      exact countP_eq_one_of_nodup_mem (nodup_uniqueVals (metadata.map Prod.fst) []) hfmem

/-- Witness for C8 on a concrete exported table with a repeated form name:
both original rows survive, and the appended rows carry exactly one
`demographics_complete` row. -/
theorem metadata_gains_complete_fields_witness :
    (("demographics", "age") ∈
        buildMetadata [("demographics", "age"), ("demographics", "sex")] ∧
     ("demographics", "demographics" ++ "_complete") ∈
        buildMetadata [("demographics", "age"), ("demographics", "sex")]) ∧
    ((uniqueVals [] ([("demographics", "age"), ("demographics", "sex")].map Prod.fst)).map
        (fun form => (form, form ++ "_complete"))).count
      ("demographics", "demographics" ++ "_complete") = 1 := by
  have h := metadata_gains_complete_fields [("demographics", "age"), ("demographics", "sex")]
  have h2 := h.2 "demographics" (by simp)
  exact ⟨⟨h.1 ("demographics", "age") (by simp), h2.1⟩, h2.2⟩

/-- C9: the unlock operation and the relock operation built for a Command
target exactly the Command's own `study_id` and `form`; they agree with each
other on every field except the lock flag, which is false for the unlock
operation and true for the relock operation. -/
theorem lock_operations_target_same_record (verbose : Bool) (c : Command) :
    (unlockCommandFor verbose c).study_id = c.study_id ∧
    (unlockCommandFor verbose c).form = c.form ∧
    (lockCommandFor verbose c).study_id = c.study_id ∧
    (lockCommandFor verbose c).form = c.form ∧
    (unlockCommandFor verbose c).lock = false ∧
    (lockCommandFor verbose c).lock = true ∧
    (unlockCommandFor verbose c).verbose = (lockCommandFor verbose c).verbose :=
  ⟨rfl, rfl, rfl, rfl, rfl, rfl, rfl⟩

/-- A Python exception as the handler in `main` consumes it: the handler
reads `e.message`. -/
structure PyError where
  message : String
deriving Repr, DecidableEq

/-- Observable events of the connect-and-export prologue of `main`. -/
inductive MainEvent where
  | print (s : String)
  | exportMetadataCall (connection : Option String)
deriving Repr, DecidableEq

/-- Classifier: the `export_metadata` call. -/
def isExportCall : MainEvent → Bool
  | MainEvent.exportMetadataCall _ => true
  | _ => false

/-- `main` lines 78–88: `redcap_api = None`; then
`try: redcap_api = session.connect_server("data_entry")` with
`except Exception as e: print(e.message)`; then, with no further guard,
`metadata = redcap_api.export_metadata(...)`.  `connectResult` is the
outcome of the external `connect_server` call; a connection value is
abstracted as a string handle. -/
def connectAndExport (connectResult : Except PyError String) : List MainEvent :=
  match connectResult with
  | Except.ok api => [MainEvent.exportMetadataCall (some api)]
  | Except.error e => [MainEvent.print e.message, MainEvent.exportMetadataCall none]

/-- C10: if connecting to the record-store server raises, `main` catches the
exception, prints its message and continues with the null connection, so
`export_metadata` is still invoked — on the null connection; and on no
outcome of the connection attempt does `main` exit before the
`export_metadata` call is attempted. -/
theorem connect_failure_still_exports (e : PyError) :
    connectAndExport (Except.error e) =
      [MainEvent.print e.message, MainEvent.exportMetadataCall none] ∧
    ∀ r : Except PyError String, (connectAndExport r).any isExportCall = true := by
  refine ⟨rfl, ?_⟩
  intro r
  cases r <;> rfl

end BatchResolve
